import Mathlib

/-!
Verification development for the editor-synchronization bridge
(`refresh_unity` retry/readiness orchestrator, dirty-flag bookkeeping,
edit-protocol validator, and focus-nudge stall heuristic).

Python sources embedded here:
  Server/src/services/tools/refresh_unity.py
  Server/src/utils/focus_nudge.py
Components that live outside the embedded sources (the transport retry
layer and the edit validator implementation) are modelled from the design
document and marked as such in their doc comments.
-/

/-! ## String helpers (Python `in` and `str.lower`) -/

/-- Boolean test that `pat` occurs at the head of `s` (helper for substring search). -/
def starts_with : List Char → List Char → Bool
  | _, [] => true
  | [], _ :: _ => false
  | a :: as, b :: bs => a == b && starts_with as bs

/-- Boolean test that `pat` occurs as a contiguous run somewhere inside the list. -/
def has_sub (pat : List Char) : List Char → Bool
  | [] => pat.isEmpty
  | c :: rest => starts_with (c :: rest) pat || has_sub pat rest

/-- Python `pat in s` on strings (substring containment). -/
def str_contains (s pat : String) : Bool := has_sub pat.data s.data

/-- Python `s.lower()` (ASCII lowering, as used on the error strings here). -/
def lower_str (s : String) : String := String.mk (s.data.map Char.toLower)

/-- Python `a or b` on optional strings: first truthy (non-empty) value, if any. -/
def first_truthy (a b : Option String) : Option String :=
  match a with
  | some s => if s == "" then (match b with
      | some t => if t == "" then none else some t
      | none => none) else some s
  | none => match b with
      | some t => if t == "" then none else some t
      | none => none

/-! ## Stall heuristic (`focus_nudge.should_nudge`) -/

/-- Default `stall_threshold_ms` argument of `should_nudge` (10_000 in the source). -/
def stall_threshold_default : Int := 10000

/-- Embedding of `focus_nudge.should_nudge`.  `wall_ms` stands for the value
`int(time.time() * 1000)` read when `current_time_ms` is `None`. -/
def should_nudge (status : String) (editor_is_focused : Bool)
    (last_update_unix_ms : Option Int) (current_time_ms : Option Int)
    (wall_ms : Int) (stall_threshold_ms : Int) : Bool :=
  if status ≠ "running" then false
  else if editor_is_focused then false
  else
    match last_update_unix_ms with
    | none => true
    | some lu =>
      let now := current_time_ms.getD wall_ms
      decide (now - lu > stall_threshold_ms)

/-! ## Effectful focus nudge (`focus_nudge.nudge_unity_focus`) -/

/-- Minimum seconds between nudges (`_MIN_NUDGE_INTERVAL_S = 5.0`). -/
def min_nudge_interval_s : Rat := 5

/-- Environment observed by one `nudge_unity_focus` call: platform capability,
the monotonic clock, the frontmost app query result, and whether the
platform focus call on the target would succeed. -/
structure NudgeEnv where
  available : Bool
  now : Rat
  frontmost : Option String
  focus_unity_ok : Bool
deriving DecidableEq, Repr

/-- Outcome of one `nudge_unity_focus` call: its return value, the value of the
module-level `_last_nudge_time` afterwards, and the sequence of arguments
passed to the platform `_focus_app` shim (in call order). -/
structure NudgeOutcome where
  performed : Bool
  last_after : Rat
  focus_attempts : List String
deriving DecidableEq, Repr

/-- Embedding of `focus_nudge.nudge_unity_focus`: guards in source order
(availability, rate limit, frontmost lookup, already-frontmost check), then
`_last_nudge_time := now`, the focus of "Unity", the sleep, and the
conditional restore of the original app. -/
def nudge_unity_focus (force : Bool) (env : NudgeEnv) (last : Rat) : NudgeOutcome :=
  if !env.available then ⟨false, last, []⟩
  else if !force && decide (env.now - last < min_nudge_interval_s) then ⟨false, last, []⟩
  else
    match env.frontmost with
    | none => ⟨false, last, []⟩
    | some app =>
      if str_contains app "Unity" then ⟨false, last, []⟩
      else if !env.focus_unity_ok then ⟨false, env.now, ["Unity"]⟩
      else if app ≠ "" && app ≠ "Unity" then ⟨true, env.now, ["Unity", app]⟩
      else ⟨true, env.now, ["Unity"]⟩

/-! ## Edit-protocol validator -/

/-- A raw text edit as carried in an `apply_text_edits` request. -/
structure RawEdit where
  startLine : Int
  startCol : Int
  endLine : Int
  endCol : Int
  newText : String
deriving DecidableEq, Repr

/-- All four explicit coordinate fields of the edit are literally `0`. -/
def all_zero (e : RawEdit) : Bool :=
  e.startLine == 0 && e.startCol == 0 && e.endLine == 0 && e.endCol == 0

/-- Shift every coordinate of the edit by `+1` (0-based to 1-based). -/
def shift_one (e : RawEdit) : RawEdit :=
  ⟨e.startLine + 1, e.startCol + 1, e.endLine + 1, e.endCol + 1, e.newText⟩

/-- The normalized edits together with the accumulated warning codes. -/
structure NormalizedEditSet where
  edits : List RawEdit
  warnings : List String
deriving DecidableEq, Repr

/-- Result of validation: either a normalized edit set to send on, or a
rejection carrying the error code (nothing is sent to the peer). -/
inductive EditValidation
  | ok (result : NormalizedEditSet)
  | rejected (code : String)
deriving DecidableEq, Repr

/-- Modelled from the spec: the edit-protocol validator used by
`apply_text_edits` (its implementation is outside the embedded sources;
only its integration tests are).  A raw edit whose explicit
`startLine`/`startCol`/`endLine`/`endCol` fields are all `0` is, with
`strict = false`, shifted to 1-based (`+1` on each coordinate) with warning
code `zero_based_explicit_fields_normalized` appended, and, with
`strict = true`, causes the entire request to be rejected with error code
`zero_based_explicit_fields`; edits are never reordered. -/
def normalize_edits (edits : List RawEdit) (strict : Bool) : EditValidation :=
  if edits.any all_zero then
    if strict then .rejected "zero_based_explicit_fields"
    else .ok ⟨edits.map (fun e => if all_zero e then shift_one e else e),
              ["zero_based_explicit_fields_normalized"]⟩
  else .ok ⟨edits, []⟩

/-! ## Refresh orchestrator (`refresh_unity.refresh_unity`) -/

/-- Shape of the transport-level command response dictionary, restricted to
the keys `refresh_unity` reads (`success`, `error`, `message`, `hint`, and
the reason token recovered by `_extract_response_reason`). -/
structure CommandResponse where
  success : Option Bool
  error : Option String
  message : Option String
  hint : Option String
  reason : Option String
deriving DecidableEq, Repr

/-- Modelled from the spec: `_extract_response_reason` (transport layer, not
among the embedded sources) recovers the normalized reason token carried by
a failed response — here the response's explicit reason field. -/
def extract_response_reason (r : CommandResponse) : Option String := r.reason

/-- Modelled from the spec: `async_send_command_with_retry` (transport layer,
not among the embedded sources) performs the underlying send once, and with
`retry_on_reload = false` never re-sends the same command after a reload is
detected; with `retry_on_reload = true` a detected reload triggers one
automatic re-send. -/
def transport_send_count (retry_on_reload reload_detected : Bool) : Nat :=
  if retry_on_reload && reload_detected then 2 else 1

/-- The `retry_on_reload` argument `refresh_unity` passes to the transport
(hard-coded `False` at the call site). -/
def refresh_retry_on_reload : Bool := false

/-- Python `response_dict.get("success", True)`. -/
def resp_success (r : CommandResponse) : Bool := r.success.getD true

/-- Python `(response_dict.get("error") or response_dict.get("message") or "").lower()`. -/
def err_text (r : CommandResponse) : String :=
  lower_str ((first_truthy r.error r.message).getD "")

/-- The `is_connection_lost` classification of `refresh_unity`: the lower-cased
error text contains one of the four disconnect markers, or the extracted
reason token is `"reloading"`. -/
def is_connection_lost (r : CommandResponse) : Bool :=
  str_contains (err_text r) "connection closed"
  || str_contains (err_text r) "disconnected"
  || str_contains (err_text r) "aborted"
  || str_contains (err_text r) "timeout"
  || extract_response_reason r == some "reloading"

/-- The retryable test of `refresh_unity`: `hint == "retry"` or the error text
contains `"could not connect"`. -/
def is_retryable (r : CommandResponse) : Bool :=
  r.hint == some "retry" || str_contains (err_text r) "could not connect"

/-- Classification of a transport response by `refresh_unity`'s if-chain. -/
inductive SendClass
  | ok
  | expectedReload
  | retryable
  | fatal
deriving DecidableEq, Repr

/-- The classification `refresh_unity` performs on the response: success short-
circuits; otherwise expected-reload requires both a connection-lost error and
`compile == "request"`; otherwise the retryable test; otherwise fatal. -/
def classify (compile : String) (r : CommandResponse) : SendClass :=
  if resp_success r then .ok
  else if is_connection_lost r && compile == "request" then .expectedReload
  else if is_retryable r then .retryable
  else .fatal

/-! ## Readiness poller -/

/-- One readiness advice snapshot (`editor_state` resource payload). -/
structure Advice where
  ready_for_tools : Bool
  blocking_reasons : List String
deriving DecidableEq, Repr

/-- The blocking reasons that indicate Unity is actually busy
(`real_blocking_reasons` in the source; deliberately excludes `stale_status`). -/
def real_blocking_reasons : List String :=
  ["compiling", "domain_reload", "running_tests", "asset_import"]

/-- The wall-clock timeout of the readiness wait loop (`timeout_s = 60.0`). -/
def timeout_s : Rat := 60

/-- The sleep between readiness polls (`asyncio.sleep(0.25)`). -/
def poll_interval_s : Rat := 0.25

/-- One loop iteration's readiness test: `ready_for_tools is True`, or the
intersection of the advice's blocking reasons with `real_blocking_reasons`
is empty. -/
def ready_now (a : Advice) : Bool :=
  a.ready_for_tools
  || (a.blocking_reasons.filter (fun b => real_blocking_reasons.contains b)).isEmpty

/-- Result of the wait loop: whether readiness was confirmed, how many
editor-state observations were consumed, and how many sleeps were taken. -/
structure WaitOutcome where
  confirmed : Bool
  polls : Nat
  sleeps : Nat
deriving DecidableEq, Repr

/-- Embedding of the wait loop of `refresh_unity`: each element of `obs` is one
fetch of the editor-state resource before the wall clock passes the timeout
(`none` stands for a payload without a well-formed advice dictionary, which
the loop skips past after sleeping); an empty remainder is the timeout. -/
def wait_until_ready : List (Option Advice) → WaitOutcome
  | [] => ⟨false, 0, 0⟩
  | none :: rest =>
    let w := wait_until_ready rest
    ⟨w.confirmed, w.polls + 1, w.sleeps + 1⟩
  | some a :: rest =>
    if ready_now a then ⟨true, 1, 0⟩
    else
      let w := wait_until_ready rest
      ⟨w.confirmed, w.polls + 1, w.sleeps + 1⟩

/-- Total time slept by the wait loop. -/
def total_sleep (w : WaitOutcome) : Rat := w.sleeps * poll_interval_s

/-! ## The assembled `refresh_unity` orchestration -/

/-- The value `refresh_unity` returns: the original transport response passed
through (`MCPResponse(**response_dict)` or `response`), the distinguished
timeout failure, or the recovered-from-disconnect success. -/
inductive RefreshResult
  | passthrough (r : CommandResponse)
  | timedOut (wait_seconds : Rat)
  | recoveredOk
deriving DecidableEq, Repr

/-- The `success` field of the returned `MCPResponse`. -/
def result_success : RefreshResult → Bool
  | .passthrough r => resp_success r
  | .timedOut _ => false
  | .recoveredOk => true

/-- Whether the returned response carries `data.recovered_from_disconnect = True`. -/
def result_recovered_flag : RefreshResult → Bool
  | .recoveredOk => true
  | _ => false

/-- Whether the returned response carries `data.timeout = True`. -/
def result_timeout_flag : RefreshResult → Bool
  | .timedOut _ => true
  | _ => false

/-- The `data.wait_seconds` field of the returned response, when present. -/
def result_wait_seconds : RefreshResult → Option Rat
  | .timedOut w => some w
  | _ => none

/-- Everything observable about one `refresh_unity` call: the returned
response, the number of transport sends performed, the final value of the
local `recovered_from_disconnect`, the polls and sleeps of the wait loop,
and whether `clear_dirty` ran for the instance. -/
structure RefreshOutcome where
  result : RefreshResult
  sends : Nat
  recovered : Bool
  polls : Nat
  sleeps : Nat
  dirty_cleared : Bool
deriving DecidableEq, Repr

/-- The tail of `refresh_unity` after classification: the optional wait loop
(whose timeout returns before any dirty-flag bookkeeping), the best-effort
`clear_dirty` (skipped when the instance cannot be resolved, and any
exception — `clear_raises` — swallowed), and the final response. -/
def after_classify (recovered : Bool) (resp : CommandResponse)
    (wait_for_ready : Bool) (obs : List (Option Advice))
    (inst_resolved clear_raises : Bool) (sends : Nat) : RefreshOutcome :=
  if wait_for_ready then
    let w := wait_until_ready obs
    if w.confirmed then
      ⟨if recovered then .recoveredOk else .passthrough resp, sends, recovered,
        w.polls, w.sleeps, inst_resolved && !clear_raises⟩
    else
      ⟨.timedOut timeout_s, sends, recovered, w.polls, w.sleeps, false⟩
  else
    ⟨if recovered then .recoveredOk else .passthrough resp, sends, recovered,
      0, 0, inst_resolved && !clear_raises⟩

/-- Embedding of `refresh_unity`: one transport send with
`retry_on_reload = False`, classification of a failed response, early return
on the fatal and the no-wait retryable paths, then the wait loop, dirty-flag
clearing and final response.  `obs` is the stream of editor-state fetches
available within the timeout window; `inst_resolved` is whether an instance
id could be resolved for `clear_dirty`; `clear_raises` is whether resolving
or clearing raises (swallowed by the source's bare `except`). -/
def refresh_unity (compile : String) (wait_for_ready : Bool)
    (resp : CommandResponse) (obs : List (Option Advice))
    (inst_resolved clear_raises : Bool) : RefreshOutcome :=
  let sends := transport_send_count refresh_retry_on_reload
      (extract_response_reason resp == some "reloading")
  match classify compile resp with
  | .ok => after_classify false resp wait_for_ready obs inst_resolved clear_raises sends
  | .expectedReload => after_classify true resp wait_for_ready obs inst_resolved clear_raises sends
  | .retryable =>
    if !wait_for_ready then ⟨.passthrough resp, sends, false, 0, 0, false⟩
    else after_classify true resp wait_for_ready obs inst_resolved clear_raises sends
  | .fatal => ⟨.passthrough resp, sends, false, 0, 0, false⟩

/-! ## Helper lemmas -/

lemma wait_confirmed_polls_pos (obs : List (Option Advice)) :
    (wait_until_ready obs).confirmed = true → 1 ≤ (wait_until_ready obs).polls := by
  induction obs with
  | nil => simp [wait_until_ready]
  | cons o rest ih =>
    cases o with
    | none => simp [wait_until_ready]
    | some a =>
      by_cases hr : ready_now a = true
      · simp [wait_until_ready, hr]
      · simp [wait_until_ready, hr]

lemma wait_not_confirmed_polls (obs : List (Option Advice)) :
    (wait_until_ready obs).confirmed = false →
    (wait_until_ready obs).polls = obs.length := by
  induction obs with
  | nil => simp [wait_until_ready]
  | cons o rest ih =>
    cases o with
    | none => simp [wait_until_ready]; intro h; exact ih h
    | some a =>
      by_cases hr : ready_now a = true
      · simp [wait_until_ready, hr]
      · simp [wait_until_ready, hr]; intro h; exact ih h

lemma after_classify_confirmed (recovered : Bool) (resp : CommandResponse)
    (obs : List (Option Advice)) (inst cr : Bool) (sends : Nat)
    (hc : (wait_until_ready obs).confirmed = true) :
    after_classify recovered resp true obs inst cr sends =
      ⟨if recovered then .recoveredOk else .passthrough resp, sends, recovered,
        (wait_until_ready obs).polls, (wait_until_ready obs).sleeps,
        inst && !cr⟩ := by
  simp [after_classify, hc]

lemma after_classify_not_confirmed (recovered : Bool) (resp : CommandResponse)
    (obs : List (Option Advice)) (inst cr : Bool) (sends : Nat)
    (hc : (wait_until_ready obs).confirmed = false) :
    after_classify recovered resp true obs inst cr sends =
      ⟨.timedOut timeout_s, sends, recovered,
        (wait_until_ready obs).polls, (wait_until_ready obs).sleeps, false⟩ := by
  simp [after_classify, hc]

lemma refresh_sends_one (compile : String) (w : Bool) (resp : CommandResponse)
    (obs : List (Option Advice)) (inst cr : Bool) :
    (refresh_unity compile w resp obs inst cr).sends = 1 := by
  have h1 : transport_send_count refresh_retry_on_reload
      (extract_response_reason resp == some "reloading") = 1 := by
    simp [transport_send_count, refresh_retry_on_reload]
  have h2 : ∀ rec obs2 sends,
      (after_classify rec resp w obs2 inst cr sends).sends = sends := by
    intro rec obs2 sends
    cases w <;> by_cases hcc : (wait_until_ready obs2).confirmed = true <;>
      simp [after_classify, hcc]
  unfold refresh_unity
  cases hc : classify compile resp <;> simp only [hc, h1, h2] <;>
    (try split) <;> simp [h1, h2]

/-! ## C7: the stall heuristic -/

/-- C7: `should_nudge` returns false whenever status is not "running"; false
whenever the editor is focused; true when status is "running", the editor is
unfocused and no update time is recorded; and otherwise true exactly when
`current_time_ms - last_update_unix_ms` strictly exceeds the stall threshold
(default 10000). -/
theorem should_nudge_spec (status : String) (focused : Bool)
    (lu : Option Int) (ct wall th : Int) :
    (status ≠ "running" → should_nudge status focused lu (some ct) wall th = false)
    ∧ (focused = true → should_nudge status focused lu (some ct) wall th = false)
    ∧ should_nudge "running" false none (some ct) wall th = true
    ∧ (∀ l : Int,
        should_nudge "running" false (some l) (some ct) wall th = true ↔ ct - l > th)
    ∧ stall_threshold_default = 10000 := by
  refine ⟨?_, ?_, ?_, ?_, rfl⟩
  · intro h; simp [should_nudge, h]
  · intro h
    by_cases hs : status = "running" <;> simp [should_nudge, hs, h]
  · simp [should_nudge]
  · intro l; simp [should_nudge]

/-- Witness for C7 at the spec's example inputs. -/
theorem should_nudge_spec_witness :
    should_nudge "running" false (some 0) (some 15000) 0 10000 = true :=
  ((should_nudge_spec "running" false (some 0) 15000 0 10000).2.2.2.1 0).mpr
    (by norm_num)

/-! ## C3: zero-based explicit edit coordinates -/

/-- C3: a raw edit whose explicit coordinates are all 0 makes the validator,
with `strict = false`, accept the request, shift that edit's coordinates by
+1 (to 1,1,1,1) in the normalized output (order preserved) and emit warning
`zero_based_explicit_fields_normalized`; with `strict = true` the entire
request is rejected with code `zero_based_explicit_fields` and no edits are
produced or sent on. -/
theorem normalize_edits_zero_based (edits : List RawEdit) (e : RawEdit)
    (he : e ∈ edits) (hz : all_zero e = true) :
    normalize_edits edits true = .rejected "zero_based_explicit_fields"
    ∧ normalize_edits edits false =
        .ok ⟨edits.map (fun x => if all_zero x then shift_one x else x),
             ["zero_based_explicit_fields_normalized"]⟩
    ∧ shift_one e = ⟨1, 1, 1, 1, e.newText⟩
    ∧ (⟨1, 1, 1, 1, e.newText⟩ : RawEdit) ∈
        edits.map (fun x => if all_zero x then shift_one x else x) := by
  have hany : edits.any all_zero = true := List.any_eq_true.mpr ⟨e, he, hz⟩
  have hcoords : ((e.startLine = 0 ∧ e.startCol = 0) ∧ e.endLine = 0) ∧ e.endCol = 0 := by
    simpa [all_zero] using hz
  have hshift : shift_one e = ⟨1, 1, 1, 1, e.newText⟩ := by
    obtain ⟨⟨⟨h1, h2⟩, h3⟩, h4⟩ := hcoords
    simp [shift_one, h1, h2, h3, h4]
  refine ⟨by simp [normalize_edits, hany], by simp [normalize_edits, hany], hshift, ?_⟩
  exact List.mem_map.mpr ⟨e, he, by simp [hz, hshift]⟩

/-- Witness for C3 at the integration test's input. -/
theorem normalize_edits_zero_based_witness :
    normalize_edits [⟨0, 0, 0, 0, "//x"⟩] true = .rejected "zero_based_explicit_fields"
    ∧ normalize_edits [⟨0, 0, 0, 0, "//x"⟩] false =
        .ok ⟨[⟨1, 1, 1, 1, "//x"⟩], ["zero_based_explicit_fields_normalized"]⟩ :=
  ⟨(normalize_edits_zero_based [⟨0, 0, 0, 0, "//x"⟩] ⟨0, 0, 0, 0, "//x"⟩
      (by simp) (by decide)).1,
   by
    have h := (normalize_edits_zero_based [⟨0, 0, 0, 0, "//x"⟩] ⟨0, 0, 0, 0, "//x"⟩
      (by simp) (by decide)).2.1
    simpa using h⟩

/-! ## C1: expected-reload disconnect recovery -/

/-- C1: a refresh issued with `compile="request"` whose response fails with a
connection-lost error (or an extracted reason of "reloading") performs
exactly one transport send (`retry_on_reload` is false), marks
`recovered_from_disconnect`, proceeds to the readiness wait, and — once
readiness is confirmed — returns success with
`data.recovered_from_disconnect = true`. -/
theorem refresh_expected_reload (resp : CommandResponse)
    (obs : List (Option Advice)) (inst cr : Bool)
    (hfail : resp_success resp = false)
    (hlost : str_contains (err_text resp) "connection closed" = true
      ∨ str_contains (err_text resp) "disconnected" = true
      ∨ str_contains (err_text resp) "aborted" = true
      ∨ str_contains (err_text resp) "timeout" = true
      ∨ extract_response_reason resp = some "reloading")
    (hready : (wait_until_ready obs).confirmed = true) :
    (refresh_unity "request" true resp obs inst cr).sends = 1
    ∧ refresh_retry_on_reload = false
    ∧ (refresh_unity "request" true resp obs inst cr).recovered = true
    ∧ 1 ≤ (refresh_unity "request" true resp obs inst cr).polls
    ∧ (refresh_unity "request" true resp obs inst cr).result = .recoveredOk
    ∧ result_success (refresh_unity "request" true resp obs inst cr).result = true
    ∧ result_recovered_flag (refresh_unity "request" true resp obs inst cr).result
        = true := by
  have hlost' : is_connection_lost resp = true := by
    unfold is_connection_lost
    rcases hlost with h | h | h | h | h <;> simp [h]
  have hcl : classify "request" resp = .expectedReload := by
    simp [classify, hfail, hlost']
  have hre : refresh_unity "request" true resp obs inst cr =
      ⟨.recoveredOk,
        transport_send_count refresh_retry_on_reload
          (extract_response_reason resp == some "reloading"),
        true, (wait_until_ready obs).polls, (wait_until_ready obs).sleeps,
        inst && !cr⟩ := by
    simp only [refresh_unity, hcl]
    rw [after_classify_confirmed true resp obs inst cr _ hready]
    simp
  rw [hre]
  refine ⟨by simp [transport_send_count, refresh_retry_on_reload], rfl, rfl,
    ?_, rfl, rfl, rfl⟩
  exact wait_confirmed_polls_pos obs hready

/-- A failed response whose error text is "Connection closed". -/
def resp_conn_closed : CommandResponse :=
  ⟨some false, some "Connection closed", none, none, none⟩

/-- An advice snapshot reporting readiness. -/
def advice_ready : Advice := ⟨true, []⟩

/-- An advice snapshot that is still compiling. -/
def advice_compiling : Advice := ⟨false, ["compiling"]⟩

/-- Witness for C1: a "Connection closed" failure under `compile="request"`
with an immediately-ready poll stream yields the recovered success. -/
theorem refresh_expected_reload_witness :
    (refresh_unity "request" true resp_conn_closed [some advice_ready] true
        false).result = .recoveredOk
    ∧ result_recovered_flag
        (refresh_unity "request" true resp_conn_closed [some advice_ready] true
          false).result = true :=
  ⟨(refresh_expected_reload resp_conn_closed [some advice_ready] true false
      (by decide) (Or.inl (by decide)) (by decide)).2.2.2.2.1,
   (refresh_expected_reload resp_conn_closed [some advice_ready] true false
      (by decide) (Or.inl (by decide)) (by decide)).2.2.2.2.2.2⟩

/-! ## C2: the per-iteration readiness predicate -/

/-- C2: one iteration of the readiness wait loop succeeds immediately when
`ready_for_tools` is true; otherwise it succeeds exactly when the advice's
blocking reasons have empty intersection with the fixed real-blocking set
(so an advice blocked only by `stale_status` counts as ready); otherwise it
sleeps one poll interval (0.25 s) and continues with the remaining stream. -/
theorem wait_loop_step (a : Advice) (rest : List (Option Advice)) :
    (a.ready_for_tools = true → wait_until_ready (some a :: rest) = ⟨true, 1, 0⟩)
    ∧ (a.ready_for_tools = false →
        (a.blocking_reasons.filter (fun b => real_blocking_reasons.contains b) = [] →
          wait_until_ready (some a :: rest) = ⟨true, 1, 0⟩)
        ∧ (a.blocking_reasons.filter (fun b => real_blocking_reasons.contains b) ≠ [] →
            wait_until_ready (some a :: rest) =
              ⟨(wait_until_ready rest).confirmed, (wait_until_ready rest).polls + 1,
                (wait_until_ready rest).sleeps + 1⟩
            ∧ total_sleep (wait_until_ready (some a :: rest)) =
                total_sleep (wait_until_ready rest) + poll_interval_s))
    ∧ ready_now ⟨false, ["stale_status"]⟩ = true := by
  refine ⟨?_, ?_, by decide⟩
  · intro h
    simp [wait_until_ready, ready_now, h]
  · intro h
    constructor
    · intro hb
      have hrn : ready_now a = true := by
        unfold ready_now
        rw [h, hb]
        rfl
      simp [wait_until_ready, hrn]
    · intro hb
      cases hf : a.blocking_reasons.filter (fun b => real_blocking_reasons.contains b) with
      | nil => exact absurd hf hb
      | cons x xs =>
        have hrn : ready_now a = false := by
          unfold ready_now
          rw [h, hf]
          rfl
        constructor
        · simp [wait_until_ready, hrn]
        · simp [wait_until_ready, hrn, total_sleep]
          ring

/-- Witness for C2: an advice blocked only by `stale_status` (so
`ready_for_tools` is not true) makes the loop succeed on that observation. -/
theorem wait_loop_step_witness :
    wait_until_ready [some ⟨false, ["stale_status"]⟩] = ⟨true, 1, 0⟩ :=
  ((wait_loop_step ⟨false, ["stale_status"]⟩ []).2.1 rfl).1 (by decide)

/-! ## C5: readiness-wait timeout -/

/-- C5: when the readiness wait exhausts its observation stream without
confirming readiness, `refresh_unity` returns the distinguished timeout
failure — `success=false` with `data.timeout=true` and
`data.wait_seconds = 60` — after consuming exactly the observations
available within the 60-second window, and without clearing the dirty
flag. -/
theorem refresh_timeout (compile : String) (resp : CommandResponse)
    (obs : List (Option Advice)) (inst cr : Bool)
    (hclass : classify compile resp ≠ .fatal)
    (hnc : (wait_until_ready obs).confirmed = false) :
    (refresh_unity compile true resp obs inst cr).result = .timedOut timeout_s
    ∧ result_success (refresh_unity compile true resp obs inst cr).result = false
    ∧ result_timeout_flag (refresh_unity compile true resp obs inst cr).result = true
    ∧ result_wait_seconds (refresh_unity compile true resp obs inst cr).result
        = some 60
    ∧ (refresh_unity compile true resp obs inst cr).polls = obs.length
    ∧ (refresh_unity compile true resp obs inst cr).dirty_cleared = false := by
  have hpolls := wait_not_confirmed_polls obs hnc
  have hre : ∀ rec, after_classify rec resp true obs inst cr
      (transport_send_count refresh_retry_on_reload
        (extract_response_reason resp == some "reloading")) =
      ⟨.timedOut timeout_s, _, rec, (wait_until_ready obs).polls,
        (wait_until_ready obs).sleeps, false⟩ :=
    fun rec => after_classify_not_confirmed rec resp obs inst cr _ hnc
  cases hc : classify compile resp with
  | fatal => exact absurd hc hclass
  | ok =>
    simp only [refresh_unity, hc, hre false]
    simp [result_wait_seconds, result_success, result_timeout_flag, timeout_s, hpolls]
  | expectedReload =>
    simp only [refresh_unity, hc, hre true]
    simp [result_wait_seconds, result_success, result_timeout_flag, timeout_s, hpolls]
  | retryable =>
    simp only [refresh_unity, hc, Bool.not_true, Bool.false_eq_true, if_false,
      hre true]
    simp [result_wait_seconds, result_success, result_timeout_flag, timeout_s, hpolls]

/-- A plainly successful transport response. -/
def resp_ok : CommandResponse := ⟨some true, none, none, none, none⟩

/-- Witness for C5: a successful send followed by an exhausted (empty)
observation stream produces the timeout failure. -/
theorem refresh_timeout_witness :
    (refresh_unity "none" true resp_ok [] true false).result = .timedOut timeout_s
    ∧ result_timeout_flag (refresh_unity "none" true resp_ok [] true
        false).result = true :=
  ⟨(refresh_timeout "none" resp_ok [] true false (by decide) (by decide)).1,
   (refresh_timeout "none" resp_ok [] true false (by decide) (by decide)).2.2.1⟩

/-! ## C8: fatal failures returned unchanged -/

/-- C8: a failed response that is neither an expected-reload disconnect nor
retryable is returned to the caller unchanged after the single send, with no
readiness polling, no recovery marker and no dirty-flag clearing. -/
theorem refresh_fatal (compile : String) (w : Bool) (resp : CommandResponse)
    (obs : List (Option Advice)) (inst cr : Bool)
    (hf : classify compile resp = .fatal) :
    refresh_unity compile w resp obs inst cr =
      ⟨.passthrough resp, 1, false, 0, 0, false⟩ := by
  unfold refresh_unity
  rw [hf]
  simp [transport_send_count, refresh_retry_on_reload]

/-- A failed response with an unrelated error message. -/
def resp_fatal : CommandResponse :=
  ⟨some false, some "compilation failed: CS0103", none, none, none⟩

/-- Witness for C8: an unrelated failure is passed through with zero polls. -/
theorem refresh_fatal_witness :
    refresh_unity "none" true resp_fatal [some advice_ready] true false =
      ⟨.passthrough resp_fatal, 1, false, 0, 0, false⟩ :=
  refresh_fatal "none" true resp_fatal [some advice_ready] true false (by decide)

/-! ## C4: retryable failures without compile="request" -/

/-- A failed response carrying the retry hint and no connection-lost error text. -/
def resp_retry : CommandResponse := ⟨some false, none, none, some "retry", none⟩

/-- Counterexample to C4 as stated: with `compile="none"`, a retryable failure
(`hint="retry"`) that takes the readiness wait as recovery DOES end in a
response marked `data.recovered_from_disconnect = true` — the marker is not
reserved for the compile-triggering path. -/
theorem refresh_retryable_counterexample :
    is_retryable resp_retry = true
    ∧ resp_success resp_retry = false
    ∧ is_connection_lost resp_retry = false
    ∧ (refresh_unity "none" true resp_retry [some advice_ready] true
        false).recovered = true
    ∧ result_recovered_flag
        (refresh_unity "none" true resp_retry [some advice_ready] true
          false).result = true := by
  decide

/-- Helper: the `recovered` flag of the post-classification tail is the
classification's choice. -/
lemma after_classify_recovered (recovered : Bool) (resp : CommandResponse)
    (w : Bool) (obs : List (Option Advice)) (inst cr : Bool) (sends : Nat) :
    (after_classify recovered resp w obs inst cr sends).recovered = recovered := by
  cases w <;> by_cases hcc : (wait_until_ready obs).confirmed = true <;>
    simp [after_classify, hcc]

/-- C4 (amended): a failed retryable response (`hint="retry"` or error text
containing "could not connect") on a command without `compile="request"` is
returned as-is when no readiness wait was requested (no polling, no dirty
clearing); when the readiness wait is taken as a recovery path the command
is not re-sent (single transport send) but — contrary to the original
claim — the result is marked `recovered_from_disconnect`, and once
readiness is confirmed the returned response is the recovered success. -/
theorem refresh_retryable_spec (compile : String) (resp : CommandResponse)
    (obs : List (Option Advice)) (inst cr : Bool)
    (hfail : resp_success resp = false)
    (hretry : is_retryable resp = true)
    (hnc : compile ≠ "request") :
    refresh_unity compile false resp obs inst cr =
      ⟨.passthrough resp, 1, false, 0, 0, false⟩
    ∧ (refresh_unity compile true resp obs inst cr).sends = 1
    ∧ (refresh_unity compile true resp obs inst cr).recovered = true
    ∧ ((wait_until_ready obs).confirmed = true →
        (refresh_unity compile true resp obs inst cr).result = .recoveredOk
        ∧ result_recovered_flag
            (refresh_unity compile true resp obs inst cr).result = true) := by
  have hb : (compile == "request") = false := by
    simp [hnc]
  have hcl : classify compile resp = .retryable := by
    simp [classify, hfail, hb, hretry]
  refine ⟨?_, refresh_sends_one compile true resp obs inst cr, ?_, ?_⟩
  · simp only [refresh_unity, hcl]
    simp [transport_send_count, refresh_retry_on_reload]
  · simp only [refresh_unity, hcl, Bool.not_true, Bool.false_eq_true, if_false]
    exact after_classify_recovered true resp true obs inst cr _
  · intro hconf
    simp only [refresh_unity, hcl, Bool.not_true, Bool.false_eq_true, if_false]
    rw [after_classify_confirmed true resp obs inst cr _ hconf]
    simp [result_recovered_flag]

/-- Witness for the amended C4: the no-wait side returns the response as-is. -/
theorem refresh_retryable_spec_witness :
    refresh_unity "none" false resp_retry [] true false =
      ⟨.passthrough resp_retry, 1, false, 0, 0, false⟩ :=
  (refresh_retryable_spec "none" resp_retry [] true false (by decide) (by decide)
    (by decide)).1

/-! ## C6: dirty-flag clearing -/

/-- Counterexample to C6 as stated: a plain successful refresh with
`wait_for_ready=false` clears the dirty flag although no readiness was
confirmed (zero polls) and the recovered-from-disconnect path was not
taken. -/
theorem refresh_clear_dirty_counterexample :
    (refresh_unity "none" false resp_ok [] true false).dirty_cleared = true
    ∧ (refresh_unity "none" false resp_ok [] true false).polls = 0
    ∧ (refresh_unity "none" false resp_ok [] true false).recovered = false
    ∧ result_recovered_flag
        (refresh_unity "none" false resp_ok [] true false).result = false := by
  decide

/-- Helper: the returned response of the post-classification tail does not
depend on whether the best-effort dirty-clear raised. -/
lemma after_classify_result_indep (recovered : Bool) (resp : CommandResponse)
    (w : Bool) (obs : List (Option Advice)) (inst cr cr2 : Bool) (sends : Nat) :
    (after_classify recovered resp w obs inst cr sends).result =
      (after_classify recovered resp w obs inst cr2 sends).result := by
  cases w <;> by_cases hcc : (wait_until_ready obs).confirmed = true <;>
    simp [after_classify, hcc]

/-- C6 (amended): the dirty flag is never cleared when the readiness wait
times out, nor on the fatal or no-wait retryable early returns; whenever it
is cleared the instance was resolved, clearing did not raise, and — if a
readiness wait was requested — readiness was confirmed.  (Contrary to the
original claim, a successful send with `wait_for_ready=false` also clears
the flag without readiness confirmation.)  Exceptions while resolving the
instance or clearing are swallowed: the returned response is unchanged. -/
theorem refresh_clear_dirty_spec (compile : String) (w : Bool)
    (resp : CommandResponse) (obs : List (Option Advice)) (inst cr : Bool) :
    ((wait_until_ready obs).confirmed = false →
      (refresh_unity compile true resp obs inst cr).dirty_cleared = false)
    ∧ (classify compile resp = .fatal →
      (refresh_unity compile w resp obs inst cr).dirty_cleared = false)
    ∧ (classify compile resp = .retryable →
      (refresh_unity compile false resp obs inst cr).dirty_cleared = false)
    ∧ ((refresh_unity compile w resp obs inst cr).dirty_cleared = true →
        inst = true ∧ cr = false
        ∧ (w = true → (wait_until_ready obs).confirmed = true))
    ∧ (∀ cr2 : Bool, (refresh_unity compile w resp obs inst cr).result =
        (refresh_unity compile w resp obs inst cr2).result) := by
  refine ⟨?_, ?_, ?_, ?_, ?_⟩
  · intro hnc
    cases hc : classify compile resp with
    | fatal => simp only [refresh_unity, hc]
    | ok =>
      simp only [refresh_unity, hc]
      rw [after_classify_not_confirmed false resp obs inst cr _ hnc]
    | expectedReload =>
      simp only [refresh_unity, hc]
      rw [after_classify_not_confirmed true resp obs inst cr _ hnc]
    | retryable =>
      simp only [refresh_unity, hc, Bool.not_true, Bool.false_eq_true, if_false]
      rw [after_classify_not_confirmed true resp obs inst cr _ hnc]
  · intro hc
    simp only [refresh_unity, hc]
  · intro hc
    simp only [refresh_unity, hc, Bool.not_false, if_true]
  · have htail : ∀ rec sends,
        (after_classify rec resp w obs inst cr sends).dirty_cleared = true →
        inst = true ∧ cr = false
        ∧ (w = true → (wait_until_ready obs).confirmed = true) := by
      intro rec sends
      cases w <;> by_cases hcc : (wait_until_ready obs).confirmed = true <;>
        simp [after_classify, hcc]
    cases hc : classify compile resp with
    | fatal => simp only [refresh_unity, hc]; intro h; cases h
    | ok => simp only [refresh_unity, hc]; exact htail false _
    | expectedReload => simp only [refresh_unity, hc]; exact htail true _
    | retryable =>
      cases w with
      | false => simp only [refresh_unity, hc, Bool.not_false, if_true]; intro h; cases h
      | true =>
        simp only [refresh_unity, hc, Bool.not_true, Bool.false_eq_true, if_false]
        intro h
        rcases htail true _ h with ⟨h1, h2, h3⟩
        exact ⟨h1, h2, fun _ => h3 rfl⟩
  · intro cr2
    cases hc : classify compile resp with
    | fatal => simp only [refresh_unity, hc]
    | ok =>
      simp only [refresh_unity, hc]
      exact after_classify_result_indep false resp w obs inst cr cr2 _
    | expectedReload =>
      simp only [refresh_unity, hc]
      exact after_classify_result_indep true resp w obs inst cr cr2 _
    | retryable =>
      cases w with
      | false => simp only [refresh_unity, hc, Bool.not_false, if_true]
      | true =>
        simp only [refresh_unity, hc, Bool.not_true, Bool.false_eq_true, if_false]
        exact after_classify_result_indep true resp true obs inst cr cr2 _

/-- Witness for the amended C6: a timed-out wait leaves the flag uncleared. -/
theorem refresh_clear_dirty_spec_witness :
    (refresh_unity "none" true resp_ok [] true false).dirty_cleared = false :=
  (refresh_clear_dirty_spec "none" true resp_ok [] true false).1 (by decide)

/-! ## C9: rate limiting and no-op of the effectful nudge -/

/-- Helper: whenever `nudge_unity_focus` returns true, it recorded the
current time in `_last_nudge_time`. -/
lemma nudge_performed_last (f : Bool) (env : NudgeEnv) (l : Rat) :
    (nudge_unity_focus f env l).performed = true →
    (nudge_unity_focus f env l).last_after = env.now := by
  unfold nudge_unity_focus
  split
  · simp
  · split
    · simp
    · split
      · simp
      · split
        · simp
        · split
          · simp
          · split <;> simp

/-- C9: an unforced nudge issued less than 5 seconds after a performed nudge
is skipped (returns false, no focus attempt); any nudge is a no-op when the
target is already the foreground app; a forced nudge bypasses only the
interval check — it still requires the capability, a determined frontmost
app, and the target not already frontmost. -/
theorem nudge_focus_spec (e1 e2 : NudgeEnv) (l : Rat) (f : Bool) :
    ((nudge_unity_focus f e1 l).performed = true →
      e2.now - e1.now < min_nudge_interval_s →
      nudge_unity_focus false e2 (nudge_unity_focus f e1 l).last_after =
        ⟨false, (nudge_unity_focus f e1 l).last_after, []⟩)
    ∧ (∀ app, e2.frontmost = some app → str_contains app "Unity" = true →
        nudge_unity_focus f e2 l = ⟨false, l, []⟩)
    ∧ (∀ app, e2.available = true → e2.frontmost = some app →
        str_contains app "Unity" = false →
        (nudge_unity_focus true e2 l).focus_attempts ≠ [])
    ∧ (e2.available = false → nudge_unity_focus true e2 l = ⟨false, l, []⟩)
    ∧ (e2.frontmost = none → nudge_unity_focus true e2 l = ⟨false, l, []⟩) := by
  refine ⟨?_, ?_, ?_, ?_, ?_⟩
  · intro hp hlt
    rw [nudge_performed_last f e1 l hp]
    cases ha : e2.available with
    | false => unfold nudge_unity_focus; simp [ha]
    | true => unfold nudge_unity_focus; simp [ha, hlt]
  · intro app hfr hu
    cases ha : e2.available with
    | false => unfold nudge_unity_focus; simp [ha]
    | true =>
      unfold nudge_unity_focus
      by_cases hr : (!f && decide (e2.now - l < min_nudge_interval_s)) = true <;>
        simp [ha, hr, hfr, hu]
  · intro app ha hfr hu
    unfold nudge_unity_focus
    simp only [ha, Bool.not_true, Bool.false_eq_true, if_false, Bool.false_and,
      hfr, hu]
    split <;> (try split) <;> simp
  · intro ha
    unfold nudge_unity_focus
    simp [ha]
  · intro hfr
    cases ha : e2.available with
    | false => unfold nudge_unity_focus; simp [ha]
    | true => unfold nudge_unity_focus; simp [ha, hfr]

/-- An environment whose frontmost app is the Unity editor itself. -/
def env_unity_front : NudgeEnv := ⟨true, 100, some "Unity Editor", true⟩

/-- Witness for C9: with Unity already frontmost, the nudge is a no-op. -/
theorem nudge_focus_spec_witness :
    nudge_unity_focus false env_unity_front 0 = ⟨false, 0, []⟩ :=
  (nudge_focus_spec env_unity_front env_unity_front 0 false).2.1 "Unity Editor"
    rfl (by decide)

/-! ## C10: the last-nudge timestamp is only written on a real attempt -/

/-- Helper: if no focus attempt was made, `_last_nudge_time` is unchanged. -/
lemma nudge_no_attempt_last (f : Bool) (env : NudgeEnv) (l : Rat) :
    (nudge_unity_focus f env l).focus_attempts = [] →
    (nudge_unity_focus f env l).last_after = l := by
  unfold nudge_unity_focus
  split
  · simp
  · split
    · simp
    · split
      · simp
      · split
        · simp
        · split
          · simp
          · split <;> simp

/-- C10: any call skipped before the focus attempt — capability unavailable,
rate-limit interval not elapsed, frontmost app undetermined, or target
already frontmost — returns false and leaves the module-level last-nudge
timestamp unchanged; the timestamp changes only on a call that proceeds to
the focus attempt. -/
theorem nudge_skip_frame (f : Bool) (env : NudgeEnv) (l : Rat) :
    ((env.available = false
        ∨ (f = false ∧ env.now - l < min_nudge_interval_s)
        ∨ env.frontmost = none
        ∨ (∃ app, env.frontmost = some app ∧ str_contains app "Unity" = true)) →
      nudge_unity_focus f env l = ⟨false, l, []⟩)
    ∧ ((nudge_unity_focus f env l).last_after ≠ l →
        (nudge_unity_focus f env l).focus_attempts ≠ []) := by
  constructor
  · rintro (ha | ⟨hf, hlt⟩ | hn | ⟨app, hfr, hu⟩)
    · unfold nudge_unity_focus
      simp [ha]
    · subst hf
      cases ha : env.available with
      | false => unfold nudge_unity_focus; simp [ha]
      | true => unfold nudge_unity_focus; simp [ha, hlt]
    · cases ha : env.available with
      | false => unfold nudge_unity_focus; simp [ha]
      | true =>
        unfold nudge_unity_focus
        by_cases hr : (!f && decide (env.now - l < min_nudge_interval_s)) = true <;>
          simp [ha, hr, hn]
    · cases ha : env.available with
      | false => unfold nudge_unity_focus; simp [ha]
      | true =>
        unfold nudge_unity_focus
        by_cases hr : (!f && decide (env.now - l < min_nudge_interval_s)) = true <;>
          simp [ha, hr, hfr, hu]
  · intro hne hatt
    exact hne (nudge_no_attempt_last f env l hatt)

/-- An environment on a platform without focus-nudge capability. -/
def env_no_capability : NudgeEnv := ⟨false, 100, some "Terminal", true⟩

/-- Witness for C10: a capability-unavailable call leaves the timestamp at 7. -/
theorem nudge_skip_frame_witness :
    nudge_unity_focus true env_no_capability 7 = ⟨false, 7, []⟩ :=
  (nudge_skip_frame true env_no_capability 7).1 (Or.inl rfl)
